import Mathlib

set_option maxRecDepth 100000

/-!
Verification of the GPT disk-image builder (`src/gpt/gpt.cpp`, `src/core/include/core/crc32.hpp`).

The C++ source is shallowly embedded: bytes are `Nat` values below 256, byte buffers are
`List Nat`, 32-bit unsigned arithmetic is carried out with an explicit 32-bit-wide xor
(`bitXor 32`), division by two models the C++ right shifts, and the fallible `make_gpt`
(which throws `std::invalid_argument`) becomes a function into `Except String`.
The packed on-disk structures (`gpt_protective_mbr`, `gpt_header`, `gpt_partition_entry`)
are represented by records together with little-endian serializers that reproduce the
byte-for-byte layout the C++ obtains via `memcpy` of the packed structs.
-/

/-- `lebytes n v` is the little-endian encoding of `v` on `n` bytes, exactly the memory
image of an `n`-byte unsigned little-endian integer field holding `v % 256^n`. -/
def lebytes : Nat → Nat → List Nat
  | 0, _ => []
  | n + 1, v => v % 256 :: lebytes n (v / 256)

/-- A run of `n` zero bytes (zero-initialized buffer contents, `std::vector` default). -/
def zeroBytes (n : Nat) : List Nat :=
  List.replicate n 0

/-- `blit dst off src` overwrites `dst` with `src` starting at byte offset `off`;
this is the model of `std::memcpy(dst.data() + off, src, src.size())`. -/
def blit (dst : List Nat) (off : Nat) (src : List Nat) : List Nat :=
  dst.take off ++ src ++ dst.drop (off + src.length)

/-- `extractBytes l off len` reads the `len` bytes of `l` starting at offset `off`. -/
def extractBytes (l : List Nat) (off len : Nat) : List Nat :=
  (l.drop off).take len

/-- Decode a little-endian byte list back to the unsigned integer it stores. -/
def le_value (bytes : List Nat) : Nat :=
  bytes.foldr (fun b acc => b + 256 * acc) 0

/-- `bitXor w a b` is the exclusive or of the low `w` bits of `a` and `b`; for
`a, b < 2^w` this is exactly the machine `a ^ b` on a `w`-bit unsigned integer. -/
def bitXor : Nat → Nat → Nat → Nat
  | 0, _, _ => 0
  | w + 1, a, b => (a % 2 + b % 2) % 2 + 2 * bitXor w (a / 2) (b / 2)

/-- One iteration of the inner bit loop of `crc32` (src/core/include/core/crc32.hpp:10-14):
`b = (byte ^ crc) & 1` (the xor of the two low bits), `crc >>= 1`, and a conditional xor
with the reversed polynomial `0xEDB88320`. -/
def crc32_round (crc byte : Nat) : Nat :=
  let b := (byte % 2 + crc % 2) % 2
  let crc2 := crc / 2
  if b = 1 then bitXor 32 crc2 0xEDB88320 else crc2

/-- The inner loop of `crc32`: process `n` bits of `byte`, shifting `byte` right each time
(`bit = 0; bit < 8; bit++, byte >>= 1`). -/
def crc32_bits : Nat → Nat → Nat → Nat
  | 0, crc, _ => crc
  | n + 1, crc, byte => crc32_bits n (crc32_round crc byte) (byte / 2)

/-- The `crc32` function of `src/core/include/core/crc32.hpp` (also inlined at
src/gpt/gpt.cpp:86-98): reflected CRC-32, initial accumulator `0xFFFFFFFF`, each byte
processed least-significant-bit first, accumulator complemented (`~crc`, i.e. xor with
`0xFFFFFFFF`) before return. -/
def crc32 (data : List Nat) : Nat :=
  bitXor 32 (data.foldl (fun crc byte => crc32_bits 8 crc byte) 0xFFFFFFFF) 0xFFFFFFFF

-- UEFI Spec 2.8 -- Section 5.3.2 Table 22 (struct gpt_partition_entry).
structure gpt_partition_entry where
  partition_type_guid : List Nat
  unique_partition_guid : List Nat
  starting_lba : Nat
  ending_lba : Nat
  attributes : Nat
  partition_name : List Nat
deriving DecidableEq

/-- The C++ type system guarantees what this predicate states: a `guid` is
`std::array<uint8_t,16>` (16 bytes) and `partition_name` is `std::array<char16_t,36>`
(36 UTF-16 code units). -/
def gpt_partition_entry.wf (p : gpt_partition_entry) : Prop :=
  p.partition_type_guid.length = 16 ∧ p.unique_partition_guid.length = 16 ∧
    p.partition_name.length = 36

instance (p : gpt_partition_entry) : Decidable p.wf :=
  inferInstanceAs (Decidable (p.partition_type_guid.length = 16 ∧
    p.unique_partition_guid.length = 16 ∧ p.partition_name.length = 36))

-- struct gpt_descriptor (src/gpt/gpt.cpp:114-119).
structure gpt_descriptor where
  block_size : Nat
  number_of_blocks : Nat
  disk_guid : List Nat
  partitions : List gpt_partition_entry
deriving DecidableEq

/-- Well-formedness guaranteed by the C++ types: the disk guid is 16 bytes and every
partition entry has its fixed-size arrays at their declared sizes. -/
def gpt_descriptor.wf (d : gpt_descriptor) : Prop :=
  d.disk_guid.length = 16 ∧ ∀ p ∈ d.partitions, p.wf

instance (d : gpt_descriptor) : Decidable d.wf :=
  inferInstanceAs (Decidable (d.disk_guid.length = 16 ∧ ∀ p ∈ d.partitions, p.wf))

-- struct gpt_data (src/gpt/gpt.cpp:121-124).
structure gpt_data where
  header : List Nat
  footer : List Nat
deriving DecidableEq

-- UEFI Spec 2.8 -- Section 5.3.2 Table 21 (struct gpt_header).
structure gpt_header where
  signature : List Nat
  revision : List Nat
  header_size : Nat
  header_crc32 : Nat
  reserved : Nat
  my_lba : Nat
  alternate_lba : Nat
  first_usable_lba : Nat
  last_usable_lba : Nat
  disk_guid : List Nat
  partition_entry_lba : Nat
  number_of_partition_entries : Nat
  size_of_partition_entry : Nat
  partition_entry_checksum : Nat
deriving DecidableEq

/-- The 128-byte memory image of a packed `gpt_partition_entry`: two 16-byte guids,
three 8-byte little-endian integers, then 36 little-endian `char16_t` code units. -/
def serialize_partition_entry (p : gpt_partition_entry) : List Nat :=
  p.partition_type_guid ++ p.unique_partition_guid ++
    lebytes 8 p.starting_lba ++ lebytes 8 p.ending_lba ++ lebytes 8 p.attributes ++
    (p.partition_name.map (lebytes 2)).flatten

/-- The memory image of the partition entry array (`partition_span` viewed as bytes). -/
def serialize_partition_entries (ps : List gpt_partition_entry) : List Nat :=
  (ps.map serialize_partition_entry).flatten

/-- The 92-byte memory image of a packed `gpt_header` in declaration order. -/
def serialize_gpt_header (h : gpt_header) : List Nat :=
  h.signature ++ h.revision ++ lebytes 4 h.header_size ++ lebytes 4 h.header_crc32 ++
    lebytes 4 h.reserved ++ lebytes 8 h.my_lba ++ lebytes 8 h.alternate_lba ++
    lebytes 8 h.first_usable_lba ++ lebytes 8 h.last_usable_lba ++ h.disk_guid ++
    lebytes 8 h.partition_entry_lba ++ lebytes 4 h.number_of_partition_entries ++
    lebytes 4 h.size_of_partition_entry ++ lebytes 4 h.partition_entry_checksum

/-- `partition_entry_blocks` (src/gpt/gpt.cpp:142-143): ceiling of
`128 * partitions.size()` (the `size_bytes()` of the span) over `block_size`. -/
def partition_entry_blocks (d : gpt_descriptor) : Nat :=
  (128 * d.partitions.length + (d.block_size - 1)) / d.block_size

/-- `first_usable_lba = 2 + partition_entry_blocks` (src/gpt/gpt.cpp:150). -/
def first_usable_lba (d : gpt_descriptor) : Nat :=
  2 + partition_entry_blocks d

/-- `last_usable_lba = number_of_blocks - partition_entry_blocks - 2`
(src/gpt/gpt.cpp:151). -/
def last_usable_lba (d : gpt_descriptor) : Nat :=
  d.number_of_blocks - partition_entry_blocks d - 2

/-- The three per-partition range checks of src/gpt/gpt.cpp:153-159, in source order. -/
def check_partition (fu lu : Nat) (p : gpt_partition_entry) : Except String Unit :=
  if p.starting_lba < fu then
    .error "Starting LBA less than first usable LBA!"
  else if p.ending_lba > lu then
    .error "Ending LBA greater than last usable LBA!"
  else if p.starting_lba > p.ending_lba then
    .error "Starting LBA is greater than ending LBA!"
  else
    .ok ()

/-- The inner overlap loop of src/gpt/gpt.cpp:161-166: partition `a` (iterator `i`) is
tested against each later partition `b` (iterator `j`); the test asks whether either
endpoint of `a` lies inside `[b.starting_lba, b.ending_lba]`. -/
def check_overlap (a : gpt_partition_entry) : List gpt_partition_entry → Except String Unit
  | [] => .ok ()
  | b :: rest =>
    if (a.starting_lba ≥ b.starting_lba ∧ a.starting_lba ≤ b.ending_lba) ∨
        (a.ending_lba ≥ b.starting_lba ∧ a.ending_lba ≤ b.ending_lba) then
      .error "Overlapping partitions!"
    else
      check_overlap a rest

/-- The outer validation loop of src/gpt/gpt.cpp:152-167: for each partition in order,
run the range checks, then the overlap loop against all later partitions. -/
def validate_partitions (fu lu : Nat) : List gpt_partition_entry → Except String Unit
  | [] => .ok ()
  | p :: rest =>
    match check_partition fu lu p with
    | .error e => .error e
    | .ok _ =>
      match check_overlap p rest with
      | .error e => .error e
      | .ok _ => validate_partitions fu lu rest

/-- `size_in_lba` of the first protective-MBR partition record (src/gpt/gpt.cpp:186-188):
`number_of_blocks > UINT32_MAX ? 0xfffffff : (uint32_t)(number_of_blocks - 1)`. -/
def mbr_size_in_lba (number_of_blocks : Nat) : Nat :=
  if number_of_blocks > 4294967295 then 0xfffffff else number_of_blocks - 1

/-- The 512-byte memory image of `mbr_header` (src/gpt/gpt.cpp:175-216): 440 zero bytes
of boot code, zero disk signature (4 bytes), zero `unknown` (2 bytes), the populated
first partition record, three all-zero 16-byte records, and the `{0x55, 0xaa}`
signature. -/
def protective_mbr_bytes (number_of_blocks : Nat) : List Nat :=
  zeroBytes 440 ++ lebytes 4 0 ++ lebytes 2 0 ++
    ([0x00] ++ [0x00, 0x02, 0x00] ++ [0xee] ++ [0xff, 0xff, 0xff] ++
      lebytes 4 1 ++ lebytes 4 (mbr_size_in_lba number_of_blocks)) ++
    zeroBytes 16 ++ zeroBytes 16 ++ zeroBytes 16 ++ [0x55, 0xaa]

/-- `partition_entry_checksum` (src/gpt/gpt.cpp:173): CRC-32 of the partition array. -/
def gpt_checksum (d : gpt_descriptor) : Nat :=
  crc32 (serialize_partition_entries d.partitions)

/-- `first_gpt_header` as initialized at src/gpt/gpt.cpp:218-233, before its
`header_crc32` is filled in (the field is initialized to 0). -/
def first_gpt_header_base (d : gpt_descriptor) : gpt_header :=
  { signature := [0x45, 0x46, 0x49, 0x20, 0x50, 0x41, 0x52, 0x54]
    revision := [0, 0, 1, 0]
    header_size := 92
    header_crc32 := 0
    reserved := 0
    my_lba := 1
    alternate_lba := d.number_of_blocks - 1
    first_usable_lba := first_usable_lba d
    last_usable_lba := last_usable_lba d
    disk_guid := d.disk_guid
    partition_entry_lba := 2
    number_of_partition_entries := d.partitions.length
    size_of_partition_entry := 128
    partition_entry_checksum := gpt_checksum d }

/-- The primary header after src/gpt/gpt.cpp:234 stored its own CRC-32 (computed over
the 92 bytes of the struct while the `header_crc32` field still held 0). -/
def first_gpt_header (d : gpt_descriptor) : gpt_header :=
  { first_gpt_header_base d with
      header_crc32 := crc32 (serialize_gpt_header (first_gpt_header_base d)) }

/-- `second_gpt_header` as initialized at src/gpt/gpt.cpp:236-251, before its
`header_crc32` is filled in. -/
def second_gpt_header_base (d : gpt_descriptor) : gpt_header :=
  { signature := [0x45, 0x46, 0x49, 0x20, 0x50, 0x41, 0x52, 0x54]
    revision := [0, 0, 1, 0]
    header_size := 92
    header_crc32 := 0
    reserved := 0
    my_lba := d.number_of_blocks - 1
    alternate_lba := 1
    first_usable_lba := 2 + partition_entry_blocks d
    last_usable_lba := d.number_of_blocks - partition_entry_blocks d - 2
    disk_guid := d.disk_guid
    partition_entry_lba := d.number_of_blocks - 1 - partition_entry_blocks d
    number_of_partition_entries := d.partitions.length
    size_of_partition_entry := 128
    partition_entry_checksum := gpt_checksum d }

/-- The backup header after src/gpt/gpt.cpp:252 stored its own CRC-32. -/
def second_gpt_header (d : gpt_descriptor) : gpt_header :=
  { second_gpt_header_base d with
      header_crc32 := crc32 (serialize_gpt_header (second_gpt_header_base d)) }

/-- The `data.header` blob (src/gpt/gpt.cpp:258-265): `(2 + partition_entry_blocks) *
block_size` zero bytes, then three `memcpy`s: MBR at offset 0, primary header at offset
`block_size`, partition entry array at offset `2 * block_size`. -/
def header_blob (d : gpt_descriptor) : List Nat :=
  blit
    (blit
      (blit (zeroBytes ((2 + partition_entry_blocks d) * d.block_size))
        0 (protective_mbr_bytes d.number_of_blocks))
      d.block_size (serialize_gpt_header (first_gpt_header d)))
    (2 * d.block_size) (serialize_partition_entries d.partitions)

/-- The `data.footer` blob (src/gpt/gpt.cpp:260-268): `(1 + partition_entry_blocks) *
block_size` zero bytes, then two `memcpy`s: partition entry array at offset 0, backup
header at offset `1 * block_size` (the literal `1` is in the source). -/
def footer_blob (d : gpt_descriptor) : List Nat :=
  blit
    (blit (zeroBytes ((1 + partition_entry_blocks d) * d.block_size))
      0 (serialize_partition_entries d.partitions))
    (1 * d.block_size) (serialize_gpt_header (second_gpt_header d))

/-- The construction half of `make_gpt` (everything after validation succeeded). -/
def build_gpt (d : gpt_descriptor) : gpt_data :=
  { header := header_blob d, footer := footer_blob d }

/-- `make_gpt` (src/gpt/gpt.cpp:126-271): validation in source order, then the blob
construction; each `throw std::invalid_argument(msg)` becomes `.error msg`. -/
def make_gpt (d : gpt_descriptor) : Except String gpt_data :=
  if d.block_size = 0 ∨ d.block_size % 512 ≠ 0 then
    .error "Block size must be a non-zero multiple of 512!"
  else if d.partitions.isEmpty then
    .error "Must provide at least one partition!"
  else if d.partitions.length > 4294967295 then
    .error "Too many partitions! (Like, waaaaaaay too many)"
  else if d.number_of_blocks < 3 + partition_entry_blocks d * 2 + 1 then
    .error "Number of blocks too small!"
  else
    match validate_partitions (first_usable_lba d) (last_usable_lba d) d.partitions with
    | .error e => .error e
    | .ok _ => .ok (build_gpt d)

/-- `true` exactly when `make_gpt` accepts the descriptor and returns the two blobs. -/
def make_gpt_ok (d : gpt_descriptor) : Bool :=
  match make_gpt d with
  | .ok _ => true
  | .error _ => false

/-- The header blob returned for an accepted descriptor (`[]` for a rejected one). -/
def gpt_header_bytes (d : gpt_descriptor) : List Nat :=
  match make_gpt d with
  | .ok g => g.header
  | .error _ => []

/-- The footer blob returned for an accepted descriptor (`[]` for a rejected one). -/
def gpt_footer_bytes (d : gpt_descriptor) : List Nat :=
  match make_gpt d with
  | .ok g => g.footer
  | .error _ => []

/-- Zero the 4 `header_crc32` bytes (offsets 16..20) inside a serialized 92-byte
GPT header image, as the CRC computation demands. -/
def zero_header_crc (bytes : List Nat) : List Nat :=
  bytes.take 16 ++ [0, 0, 0, 0] ++ bytes.drop 20

--
-- Concrete descriptors used as witnesses and counterexamples.
--

/-- An all-zero GUID (16 bytes). -/
def zero_guid : List Nat :=
  List.replicate 16 0

/-- An empty partition name (36 zero UTF-16 code units). -/
def empty_name : List Nat :=
  List.replicate 36 0

/-- A partition entry with zero guids, attributes and name, spanning `[s, e]`. -/
def mk_part (s e : Nat) : gpt_partition_entry :=
  { partition_type_guid := zero_guid
    unique_partition_guid := zero_guid
    starting_lba := s
    ending_lba := e
    attributes := 0
    partition_name := empty_name }

/-- Scenario A of the specification: 512-byte blocks, 2048 blocks, one partition. -/
def descriptor_a : gpt_descriptor :=
  { block_size := 512
    number_of_blocks := 2048
    disk_guid := zero_guid
    partitions := [mk_part 34 2014] }

/-- Five one-block partitions: `128 * 5 = 640` entry bytes need two 512-byte blocks,
so `partition_entry_blocks = 2`. -/
def descriptor_five : gpt_descriptor :=
  { block_size := 512
    number_of_blocks := 4096
    disk_guid := zero_guid
    partitions := [mk_part 4 4, mk_part 5 5, mk_part 6 6, mk_part 7 7, mk_part 8 8] }

/-- A disk of exactly `2^32` blocks, so `number_of_blocks - 1` fits in 32 bits but
`number_of_blocks` itself does not. -/
def descriptor_2pow32 : gpt_descriptor :=
  { block_size := 512
    number_of_blocks := 4294967296
    disk_guid := zero_guid
    partitions := [mk_part 3 3] }

/-- The second partition `[150, 160]` lies strictly inside the first `[100, 200]`. -/
def descriptor_nested : gpt_descriptor :=
  { block_size := 512
    number_of_blocks := 4096
    disk_guid := zero_guid
    partitions := [mk_part 100 200, mk_part 150 160] }

/-- A single partition spanning exactly `[first_usable_lba, last_usable_lba]`
(`partition_entry_blocks = 1`, so `[3, 2045]` for 2048 blocks of 512 bytes). -/
def descriptor_boundary : gpt_descriptor :=
  { block_size := 512
    number_of_blocks := 2048
    disk_guid := zero_guid
    partitions := [mk_part 3 2045] }

/-- A descriptor whose block size 511 is not a multiple of 512. -/
def descriptor_bad_bs : gpt_descriptor :=
  { block_size := 511
    number_of_blocks := 4096
    disk_guid := zero_guid
    partitions := [mk_part 100 200] }


--
-- Basic facts about the byte-buffer primitives.
--

theorem lebytes_length (n v : Nat) : (lebytes n v).length = n := by
  induction n generalizing v with
  | zero => rfl
  | succ n ih => simp [lebytes, ih]

theorem zeroBytes_length (n : Nat) : (zeroBytes n).length = n := by
  simp [zeroBytes]

theorem blit_length {dst src : List Nat} {off : Nat}
    (h : off + src.length ≤ dst.length) :
    (blit dst off src).length = dst.length := by
  simp [blit]
  omega

theorem extractBytes_append_right {A B : List Nat} {a : Nat} (len : Nat)
    (h : A.length ≤ a) :
    extractBytes (A ++ B) a len = extractBytes B (a - A.length) len := by
  simp [extractBytes, List.drop_append_eq_append_drop, List.drop_eq_nil_iff.mpr h]

theorem extractBytes_append_left {A B : List Nat} {a len : Nat}
    (h : a + len ≤ A.length) :
    extractBytes (A ++ B) a len = extractBytes A a len := by
  simp only [extractBytes, List.drop_append_eq_append_drop,
    List.take_append_eq_append_take, List.length_drop]
  have h1 : a - A.length = 0 := by omega
  have h2 : len - (A.length - a) = 0 := by omega
  simp [h1, h2]

theorem extractBytes_all (l : List Nat) : extractBytes l 0 l.length = l := by
  simp [extractBytes]

theorem extractBytes_all_of_length {l : List Nat} {n : Nat} (h : l.length = n) :
    extractBytes l 0 n = l := by
  subst h
  exact extractBytes_all l

theorem extractBytes_peel {A B : List Nat} {k a : Nat} (len : Nat)
    (hA : A.length = k) (h : k ≤ a) :
    extractBytes (A ++ B) a len = extractBytes B (a - k) len := by
  subst hA
  exact extractBytes_append_right len h

theorem extractBytes_replicate {n a len : Nat} (h : a + len ≤ n) :
    extractBytes (zeroBytes n) a len = zeroBytes len := by
  simp only [extractBytes, zeroBytes, List.drop_replicate, List.take_replicate]
  congr 1
  omega

theorem extractBytes_blit_left {dst src : List Nat} {off a len : Nat}
    (h1 : a + len ≤ off) (h2 : off ≤ dst.length) :
    extractBytes (blit dst off src) a len = extractBytes dst a len := by
  unfold blit
  rw [extractBytes_append_left
      (by simp only [List.length_append, List.length_take]; omega),
    extractBytes_append_left
      (by simp only [List.length_take]; omega)]
  simp only [extractBytes, List.drop_take, List.take_take]
  rw [show min len (off - a) = len by omega]

theorem extractBytes_blit_mid {dst src : List Nat} {off a len : Nat}
    (h1 : off ≤ a) (h2 : a + len ≤ off + src.length) (h3 : off ≤ dst.length) :
    extractBytes (blit dst off src) a len = extractBytes src (a - off) len := by
  unfold blit
  have hlt : (dst.take off).length = off := by
    simp only [List.length_take]; omega
  rw [extractBytes_append_left
      (by simp only [List.length_append, hlt]; omega),
    extractBytes_peel len hlt h1]

theorem extractBytes_blit_right {dst src : List Nat} {off a len : Nat}
    (h1 : off + src.length ≤ a) (h2 : off + src.length ≤ dst.length) :
    extractBytes (blit dst off src) a len = extractBytes dst a len := by
  unfold blit
  have hlt : (dst.take off ++ src).length = off + src.length := by
    simp only [List.length_append, List.length_take]; omega
  rw [extractBytes_peel len hlt h1]
  simp only [extractBytes, List.drop_drop]
  rw [show off + src.length + (a - (off + src.length)) = a by omega]

--
-- Lengths of the serialized records.
--

theorem flatten_map_lebytes2_length (l : List Nat) :
    ((l.map (lebytes 2)).flatten).length = 2 * l.length := by
  induction l with
  | nil => rfl
  | cons x xs ih =>
    simp only [List.map_cons, List.flatten_cons, List.length_append, ih,
      lebytes_length, List.length_cons]
    omega

theorem serialize_partition_entry_length {p : gpt_partition_entry} (h : p.wf) :
    (serialize_partition_entry p).length = 128 := by
  obtain ⟨h1, h2, h3⟩ := h
  simp only [serialize_partition_entry, List.length_append, lebytes_length,
    flatten_map_lebytes2_length, h1, h2, h3]

theorem serialize_partition_entries_cons (p : gpt_partition_entry)
    (ps : List gpt_partition_entry) :
    serialize_partition_entries (p :: ps) =
      serialize_partition_entry p ++ serialize_partition_entries ps := by
  simp [serialize_partition_entries]

theorem serialize_partition_entries_length {ps : List gpt_partition_entry}
    (h : ∀ p ∈ ps, p.wf) :
    (serialize_partition_entries ps).length = 128 * ps.length := by
  induction ps with
  | nil => rfl
  | cons p rest ih =>
    rw [serialize_partition_entries_cons]
    simp only [List.length_append,
      serialize_partition_entry_length (h p (by simp)),
      ih (fun q hq => h q (by simp [hq])), List.length_cons]
    omega

theorem serialize_gpt_header_length {h : gpt_header} (hs : h.signature.length = 8)
    (hr : h.revision.length = 4) (hg : h.disk_guid.length = 16) :
    (serialize_gpt_header h).length = 92 := by
  simp [serialize_gpt_header, lebytes_length, hs, hr, hg]

theorem protective_mbr_bytes_length (n : Nat) :
    (protective_mbr_bytes n).length = 512 := by
  simp [protective_mbr_bytes, lebytes_length, zeroBytes]

--
-- Arithmetic facts about the derived layout quantities.
--

theorem block_size_ge {d : gpt_descriptor} (h0 : d.block_size ≠ 0)
    (hm : d.block_size % 512 = 0) : 512 ≤ d.block_size := by
  rcases Nat.dvd_of_mod_eq_zero hm with ⟨k, hk⟩
  omega

theorem peb_pos {d : gpt_descriptor} (hne : d.partitions ≠ [])
    (hbs : d.block_size ≠ 0) : 1 ≤ partition_entry_blocks d := by
  unfold partition_entry_blocks
  rw [Nat.one_le_div_iff (by omega)]
  have := List.length_pos.mpr hne
  omega

theorem entries_le_peb_mul (d : gpt_descriptor) (hbs : d.block_size ≠ 0) :
    128 * d.partitions.length ≤ partition_entry_blocks d * d.block_size := by
  have h1 := Nat.div_add_mod
    (128 * d.partitions.length + (d.block_size - 1)) d.block_size
  have h2 : (128 * d.partitions.length + (d.block_size - 1)) % d.block_size
      < d.block_size := Nat.mod_lt _ (by omega)
  rw [Nat.mul_comm] at h1
  unfold partition_entry_blocks
  generalize (128 * d.partitions.length + (d.block_size - 1)) / d.block_size *
    d.block_size = m at h1 ⊢
  omega

theorem peb_mul_lt (d : gpt_descriptor) (hbs : d.block_size ≠ 0) :
    partition_entry_blocks d * d.block_size
      < 128 * d.partitions.length + d.block_size := by
  have h1 := Nat.div_mul_le_self
    (128 * d.partitions.length + (d.block_size - 1)) d.block_size
  unfold partition_entry_blocks
  generalize (128 * d.partitions.length + (d.block_size - 1)) / d.block_size *
    d.block_size = m at h1 ⊢
  omega

--
-- Unfolding `make_gpt` on an accepted descriptor.
--

theorem make_gpt_ok_elim {d : gpt_descriptor} (h : make_gpt_ok d = true) :
    d.block_size ≠ 0 ∧ d.block_size % 512 = 0 ∧ d.partitions ≠ [] ∧
    d.partitions.length ≤ 4294967295 ∧
    3 + partition_entry_blocks d * 2 + 1 ≤ d.number_of_blocks ∧
    validate_partitions (first_usable_lba d) (last_usable_lba d) d.partitions
      = .ok () ∧
    make_gpt d = .ok (build_gpt d) := by
  unfold make_gpt_ok make_gpt at h
  by_cases c1 : d.block_size = 0 ∨ d.block_size % 512 ≠ 0
  · rw [if_pos c1] at h; simp at h
  rw [if_neg c1] at h
  by_cases c2 : d.partitions.isEmpty
  · rw [if_pos c2] at h; simp at h
  rw [if_neg c2] at h
  by_cases c3 : d.partitions.length > 4294967295
  · rw [if_pos c3] at h; simp at h
  rw [if_neg c3] at h
  by_cases c4 : d.number_of_blocks < 3 + partition_entry_blocks d * 2 + 1
  · rw [if_pos c4] at h; simp at h
  rw [if_neg c4] at h
  push_neg at c1
  cases hv : validate_partitions (first_usable_lba d) (last_usable_lba d)
      d.partitions with
  | error e => rw [hv] at h; simp at h
  | ok u =>
    cases u
    refine ⟨c1.1, by omega, ?_, by omega, by omega, ?_, ?_⟩
    · intro hnil
      rw [hnil] at c2
      simp at c2
    · rfl
    · unfold make_gpt
      rw [if_neg (by push_neg; exact c1), if_neg c2, if_neg c3, if_neg c4, hv]

--
-- Soundness of the validation loops.
--

theorem check_partition_ok {fu lu : Nat} {p : gpt_partition_entry}
    (h : check_partition fu lu p = .ok ()) :
    fu ≤ p.starting_lba ∧ p.ending_lba ≤ lu ∧ p.starting_lba ≤ p.ending_lba := by
  unfold check_partition at h
  by_cases c1 : p.starting_lba < fu
  · rw [if_pos c1] at h; exact Except.noConfusion h
  rw [if_neg c1] at h
  by_cases c2 : p.ending_lba > lu
  · rw [if_pos c2] at h; exact Except.noConfusion h
  rw [if_neg c2] at h
  by_cases c3 : p.starting_lba > p.ending_lba
  · rw [if_pos c3] at h; exact Except.noConfusion h
  omega

theorem check_overlap_ok {a : gpt_partition_entry} {ps : List gpt_partition_entry}
    (h : check_overlap a ps = .ok ()) :
    ∀ b ∈ ps,
      ¬((a.starting_lba ≥ b.starting_lba ∧ a.starting_lba ≤ b.ending_lba) ∨
        (a.ending_lba ≥ b.starting_lba ∧ a.ending_lba ≤ b.ending_lba)) := by
  induction ps with
  | nil => intro b hb; cases hb
  | cons c rest ih =>
    unfold check_overlap at h
    by_cases hc : (a.starting_lba ≥ c.starting_lba ∧ a.starting_lba ≤ c.ending_lba) ∨
        (a.ending_lba ≥ c.starting_lba ∧ a.ending_lba ≤ c.ending_lba)
    · rw [if_pos hc] at h; exact Except.noConfusion h
    · rw [if_neg hc] at h
      intro b hb
      rcases List.mem_cons.mp hb with rfl | hb'
      · exact hc
      · exact ih h b hb'

theorem validate_partitions_ok {fu lu : Nat} {ps : List gpt_partition_entry}
    (h : validate_partitions fu lu ps = .ok ()) :
    (∀ p ∈ ps,
        fu ≤ p.starting_lba ∧ p.ending_lba ≤ lu ∧ p.starting_lba ≤ p.ending_lba) ∧
    List.Pairwise (fun a b =>
      ¬((a.starting_lba ≥ b.starting_lba ∧ a.starting_lba ≤ b.ending_lba) ∨
        (a.ending_lba ≥ b.starting_lba ∧ a.ending_lba ≤ b.ending_lba))) ps := by
  induction ps with
  | nil => exact ⟨fun p hp => absurd hp (by simp), List.Pairwise.nil⟩
  | cons p rest ih =>
    unfold validate_partitions at h
    cases hc : check_partition fu lu p with
    | error e => rw [hc] at h; exact Except.noConfusion h
    | ok u =>
      cases u
      rw [hc] at h
      cases ho : check_overlap p rest with
      | error e => rw [ho] at h; exact Except.noConfusion h
      | ok u2 =>
        cases u2
        rw [ho] at h
        obtain ⟨hall, hpw⟩ := ih h
        refine ⟨?_, List.Pairwise.cons (fun b hb => check_overlap_ok ho b hb) hpw⟩
        intro q hq
        rcases List.mem_cons.mp hq with rfl | hq'
        · exact check_partition_ok hc
        · exact hall q hq'

theorem make_gpt_ok_singleton {d : gpt_descriptor} {p : gpt_partition_entry}
    (hbs0 : d.block_size ≠ 0) (hbs : d.block_size % 512 = 0)
    (hone : d.partitions = [p])
    (hnob : 3 + partition_entry_blocks d * 2 + 1 ≤ d.number_of_blocks)
    (hs : p.starting_lba = first_usable_lba d)
    (he : p.ending_lba = last_usable_lba d) :
    make_gpt_ok d = true := by
  have hfl : first_usable_lba d ≤ last_usable_lba d := by
    unfold first_usable_lba last_usable_lba
    omega
  have hc : check_partition (first_usable_lba d) (last_usable_lba d) p = .ok () := by
    unfold check_partition
    rw [if_neg (show ¬p.starting_lba < first_usable_lba d by omega),
      if_neg (show ¬p.ending_lba > last_usable_lba d by omega),
      if_neg (show ¬p.starting_lba > p.ending_lba by omega)]
  unfold make_gpt_ok make_gpt
  rw [if_neg (show ¬(d.block_size = 0 ∨ d.block_size % 512 ≠ 0) by push_neg; exact ⟨hbs0, hbs⟩),
    if_neg (show ¬d.partitions.isEmpty = true by rw [hone]; simp),
    if_neg (show ¬d.partitions.length > 4294967295 by rw [hone]; simp),
    if_neg (show ¬d.number_of_blocks < 3 + partition_entry_blocks d * 2 + 1 by omega),
    hone]
  unfold validate_partitions
  rw [hc]
  rfl

--
-- Bounds for the CRC-32 accumulator and little-endian decoding.
--

theorem bitXor_lt (w a b : Nat) : bitXor w a b < 2 ^ w := by
  induction w generalizing a b with
  | zero => simp [bitXor]
  | succ w ih =>
    have h := ih (a / 2) (b / 2)
    have h2 : (a % 2 + b % 2) % 2 < 2 := Nat.mod_lt _ (by omega)
    simp only [bitXor]
    rw [Nat.pow_succ]
    omega

theorem crc32_lt (data : List Nat) : crc32 data < 4294967296 := by
  have h := bitXor_lt 32
    (data.foldl (fun crc byte => crc32_bits 8 crc byte) 0xFFFFFFFF) 0xFFFFFFFF
  unfold crc32
  exact lt_of_lt_of_eq h (by norm_num)

theorem le_value_lebytes {n v : Nat} (h : v < 256 ^ n) :
    le_value (lebytes n v) = v := by
  induction n generalizing v with
  | zero =>
    have : v = 0 := by simpa using h
    simp [this, lebytes, le_value]
  | succ n ih =>
    have hv : v / 256 < 256 ^ n := by
      rw [Nat.div_lt_iff_lt_mul (by norm_num)]
      calc v < 256 ^ (n + 1) := h
        _ = 256 ^ n * 256 := by rw [Nat.pow_succ]
    simp only [lebytes, le_value, List.foldr_cons]
    have := ih hv
    unfold le_value at this
    rw [this]
    omega

--
-- Zeroing the stored header CRC recovers the pre-checksum header image.
--

theorem zero_header_crc_serialize (h : gpt_header) (hs : h.signature.length = 8)
    (hr : h.revision.length = 4) :
    zero_header_crc (serialize_gpt_header h) =
      serialize_gpt_header { h with header_crc32 := 0 } := by
  unfold zero_header_crc serialize_gpt_header
  simp only [List.append_assoc, List.take_append_eq_append_take,
    List.drop_append_eq_append_drop, hs, hr, lebytes_length, List.length_take,
    List.length_drop]
  norm_num
  have t1 : List.take 8 h.revision = h.revision :=
    List.take_of_length_le (by omega)
  have t2 : ∀ x, List.take 4 (lebytes 4 x) = lebytes 4 x :=
    fun x => List.take_of_length_le (by simp [lebytes_length])
  have t3 : ∀ x, List.drop 8 (lebytes 4 x) = [] :=
    fun x => List.drop_eq_nil_iff.mpr (by simp [lebytes_length])
  have t4 : ∀ x, List.drop 4 (lebytes 4 x) = [] :=
    fun x => List.drop_eq_nil_iff.mpr (by simp [lebytes_length])
  have t5 : List.take 16 h.signature = h.signature :=
    List.take_of_length_le (by omega)
  have t6 : List.drop 20 h.signature = [] :=
    List.drop_eq_nil_iff.mpr (by omega)
  have t7 : List.drop 12 h.revision = [] :=
    List.drop_eq_nil_iff.mpr (by omega)
  simp [t1, t2, t3, t4, t5, t6, t7, show lebytes 4 0 = [0, 0, 0, 0] from rfl]

--
-- Reading individual fields out of the serialized records.
--

theorem serialize_gpt_header_extract (h : gpt_header) (hs : h.signature.length = 8)
    (hr : h.revision.length = 4) (hg : h.disk_guid.length = 16) :
    extractBytes (serialize_gpt_header h) 0 8 = h.signature ∧
    extractBytes (serialize_gpt_header h) 16 4 = lebytes 4 h.header_crc32 ∧
    extractBytes (serialize_gpt_header h) 24 8 = lebytes 8 h.my_lba ∧
    extractBytes (serialize_gpt_header h) 32 8 = lebytes 8 h.alternate_lba ∧
    extractBytes (serialize_gpt_header h) 40 8 = lebytes 8 h.first_usable_lba ∧
    extractBytes (serialize_gpt_header h) 48 8 = lebytes 8 h.last_usable_lba ∧
    extractBytes (serialize_gpt_header h) 72 8 = lebytes 8 h.partition_entry_lba ∧
    extractBytes (serialize_gpt_header h) 88 4 = lebytes 4 h.partition_entry_checksum := by
  unfold serialize_gpt_header
  simp only [List.append_assoc]
  refine ⟨?_, ?_, ?_, ?_, ?_, ?_, ?_, ?_⟩
  · rw [extractBytes_append_left (by omega)]
    exact extractBytes_all_of_length hs
  · rw [extractBytes_peel _ hs (by norm_num)]
    norm_num
    rw [extractBytes_peel _ hr (by norm_num)]
    norm_num
    rw [extractBytes_peel _ (lebytes_length 4 _) (by norm_num)]
    norm_num
    rw [extractBytes_append_left (by simp [lebytes_length])]
    exact extractBytes_all_of_length (lebytes_length 4 _)
  · rw [extractBytes_peel _ hs (by norm_num)]
    norm_num
    rw [extractBytes_peel _ hr (by norm_num)]
    norm_num
    rw [extractBytes_peel _ (lebytes_length 4 _) (by norm_num)]
    norm_num
    rw [extractBytes_peel _ (lebytes_length 4 _) (by norm_num)]
    norm_num
    rw [extractBytes_peel _ (lebytes_length 4 _) (by norm_num)]
    norm_num
    rw [extractBytes_append_left (by simp [lebytes_length])]
    exact extractBytes_all_of_length (lebytes_length 8 _)
  · rw [extractBytes_peel _ hs (by norm_num)]
    norm_num
    rw [extractBytes_peel _ hr (by norm_num)]
    norm_num
    rw [extractBytes_peel _ (lebytes_length 4 _) (by norm_num)]
    norm_num
    rw [extractBytes_peel _ (lebytes_length 4 _) (by norm_num)]
    norm_num
    rw [extractBytes_peel _ (lebytes_length 4 _) (by norm_num)]
    norm_num
    rw [extractBytes_peel _ (lebytes_length 8 _) (by norm_num)]
    norm_num
    rw [extractBytes_append_left (by simp [lebytes_length])]
    exact extractBytes_all_of_length (lebytes_length 8 _)
  · rw [extractBytes_peel _ hs (by norm_num)]
    norm_num
    rw [extractBytes_peel _ hr (by norm_num)]
    norm_num
    rw [extractBytes_peel _ (lebytes_length 4 _) (by norm_num)]
    norm_num
    rw [extractBytes_peel _ (lebytes_length 4 _) (by norm_num)]
    norm_num
    rw [extractBytes_peel _ (lebytes_length 4 _) (by norm_num)]
    norm_num
    rw [extractBytes_peel _ (lebytes_length 8 _) (by norm_num)]
    norm_num
    rw [extractBytes_peel _ (lebytes_length 8 _) (by norm_num)]
    norm_num
    rw [extractBytes_append_left (by simp [lebytes_length])]
    exact extractBytes_all_of_length (lebytes_length 8 _)
  · rw [extractBytes_peel _ hs (by norm_num)]
    norm_num
    rw [extractBytes_peel _ hr (by norm_num)]
    norm_num
    rw [extractBytes_peel _ (lebytes_length 4 _) (by norm_num)]
    norm_num
    rw [extractBytes_peel _ (lebytes_length 4 _) (by norm_num)]
    norm_num
    rw [extractBytes_peel _ (lebytes_length 4 _) (by norm_num)]
    norm_num
    rw [extractBytes_peel _ (lebytes_length 8 _) (by norm_num)]
    norm_num
    rw [extractBytes_peel _ (lebytes_length 8 _) (by norm_num)]
    norm_num
    rw [extractBytes_peel _ (lebytes_length 8 _) (by norm_num)]
    norm_num
    rw [extractBytes_append_left (by simp [lebytes_length])]
    exact extractBytes_all_of_length (lebytes_length 8 _)
  · rw [extractBytes_peel _ hs (by norm_num)]
    norm_num
    rw [extractBytes_peel _ hr (by norm_num)]
    norm_num
    rw [extractBytes_peel _ (lebytes_length 4 _) (by norm_num)]
    norm_num
    rw [extractBytes_peel _ (lebytes_length 4 _) (by norm_num)]
    norm_num
    rw [extractBytes_peel _ (lebytes_length 4 _) (by norm_num)]
    norm_num
    rw [extractBytes_peel _ (lebytes_length 8 _) (by norm_num)]
    norm_num
    rw [extractBytes_peel _ (lebytes_length 8 _) (by norm_num)]
    norm_num
    rw [extractBytes_peel _ (lebytes_length 8 _) (by norm_num)]
    norm_num
    rw [extractBytes_peel _ (lebytes_length 8 _) (by norm_num)]
    norm_num
    rw [extractBytes_peel _ hg (by norm_num)]
    norm_num
    rw [extractBytes_append_left (by simp [lebytes_length])]
    exact extractBytes_all_of_length (lebytes_length 8 _)
  · rw [extractBytes_peel _ hs (by norm_num)]
    norm_num
    rw [extractBytes_peel _ hr (by norm_num)]
    norm_num
    rw [extractBytes_peel _ (lebytes_length 4 _) (by norm_num)]
    norm_num
    rw [extractBytes_peel _ (lebytes_length 4 _) (by norm_num)]
    norm_num
    rw [extractBytes_peel _ (lebytes_length 4 _) (by norm_num)]
    norm_num
    rw [extractBytes_peel _ (lebytes_length 8 _) (by norm_num)]
    norm_num
    rw [extractBytes_peel _ (lebytes_length 8 _) (by norm_num)]
    norm_num
    rw [extractBytes_peel _ (lebytes_length 8 _) (by norm_num)]
    norm_num
    rw [extractBytes_peel _ (lebytes_length 8 _) (by norm_num)]
    norm_num
    rw [extractBytes_peel _ hg (by norm_num)]
    norm_num
    rw [extractBytes_peel _ (lebytes_length 8 _) (by norm_num)]
    norm_num
    rw [extractBytes_peel _ (lebytes_length 4 _) (by norm_num)]
    norm_num
    rw [extractBytes_peel _ (lebytes_length 4 _) (by norm_num)]
    norm_num
    exact extractBytes_all_of_length (lebytes_length 4 _)

theorem extractBytes_cons {x : Nat} {l : List Nat} {a len : Nat} (h : 1 ≤ a) :
    extractBytes (x :: l) a len = extractBytes l (a - 1) len := by
  obtain ⟨k, rfl⟩ : ∃ k, a = k + 1 := ⟨a - 1, by omega⟩
  simp [extractBytes]

theorem protective_mbr_extract (n : Nat) :
    extractBytes (protective_mbr_bytes n) 458 4 = lebytes 4 (mbr_size_in_lba n) ∧
    extractBytes (protective_mbr_bytes n) 510 2 = [0x55, 0xaa] := by
  unfold protective_mbr_bytes
  simp only [List.append_assoc]
  constructor
  · rw [extractBytes_peel _ (zeroBytes_length 440) (by norm_num)]
    norm_num
    rw [extractBytes_peel _ (lebytes_length 4 0) (by norm_num)]
    norm_num
    rw [extractBytes_peel _ (lebytes_length 2 0) (by norm_num)]
    norm_num
    rw [extractBytes_cons (by norm_num)]
    norm_num
    rw [extractBytes_cons (by norm_num)]
    norm_num
    rw [extractBytes_cons (by norm_num)]
    norm_num
    rw [extractBytes_cons (by norm_num)]
    norm_num
    rw [extractBytes_cons (by norm_num)]
    norm_num
    rw [extractBytes_cons (by norm_num)]
    norm_num
    rw [extractBytes_cons (by norm_num)]
    norm_num
    rw [extractBytes_cons (by norm_num)]
    norm_num
    rw [extractBytes_peel _ (lebytes_length 4 1) (by norm_num)]
    norm_num
    rw [extractBytes_append_left (by simp [lebytes_length])]
    exact extractBytes_all_of_length (lebytes_length 4 _)
  · rw [extractBytes_peel _ (zeroBytes_length 440) (by norm_num)]
    norm_num
    rw [extractBytes_peel _ (lebytes_length 4 0) (by norm_num)]
    norm_num
    rw [extractBytes_peel _ (lebytes_length 2 0) (by norm_num)]
    norm_num
    rw [extractBytes_cons (by norm_num)]
    norm_num
    rw [extractBytes_cons (by norm_num)]
    norm_num
    rw [extractBytes_cons (by norm_num)]
    norm_num
    rw [extractBytes_cons (by norm_num)]
    norm_num
    rw [extractBytes_cons (by norm_num)]
    norm_num
    rw [extractBytes_cons (by norm_num)]
    norm_num
    rw [extractBytes_cons (by norm_num)]
    norm_num
    rw [extractBytes_cons (by norm_num)]
    norm_num
    rw [extractBytes_peel _ (lebytes_length 4 1) (by norm_num)]
    norm_num
    rw [extractBytes_peel _ (lebytes_length 4 _) (by norm_num)]
    norm_num
    rw [extractBytes_peel _ (zeroBytes_length 16) (by norm_num)]
    norm_num
    rw [extractBytes_peel _ (zeroBytes_length 16) (by norm_num)]
    norm_num
    rw [extractBytes_peel _ (zeroBytes_length 16) (by norm_num)]
    norm_num
    exact extractBytes_all_of_length rfl

--
-- Numeric context shared by all facts about accepted descriptors.
--

theorem blob_nums {d : gpt_descriptor} (hwf : d.wf) (hok : make_gpt_ok d = true) :
    512 ≤ d.block_size ∧ 1 ≤ partition_entry_blocks d ∧
    128 * d.partitions.length ≤ partition_entry_blocks d * d.block_size ∧
    (serialize_partition_entries d.partitions).length = 128 * d.partitions.length ∧
    (serialize_gpt_header (first_gpt_header d)).length = 92 ∧
    (serialize_gpt_header (second_gpt_header d)).length = 92 ∧
    (2 + partition_entry_blocks d) * d.block_size
      = 2 * d.block_size + partition_entry_blocks d * d.block_size ∧
    (1 + partition_entry_blocks d) * d.block_size
      = 1 * d.block_size + partition_entry_blocks d * d.block_size ∧
    d.block_size ≤ partition_entry_blocks d * d.block_size := by
  obtain ⟨hbs0, hbs512, hne, -, -, -, -⟩ := make_gpt_ok_elim hok
  refine ⟨block_size_ge hbs0 hbs512, peb_pos hne hbs0, entries_le_peb_mul d hbs0,
    serialize_partition_entries_length hwf.2,
    serialize_gpt_header_length rfl rfl hwf.1,
    serialize_gpt_header_length rfl rfl hwf.1,
    Nat.add_mul 2 _ _, Nat.add_mul 1 _ _,
    Nat.le_mul_of_pos_left _ (peb_pos hne hbs0)⟩

theorem gpt_header_bytes_eq {d : gpt_descriptor} (hok : make_gpt_ok d = true) :
    gpt_header_bytes d = header_blob d := by
  obtain ⟨-, -, -, -, -, -, heq⟩ := make_gpt_ok_elim hok
  simp [gpt_header_bytes, heq, build_gpt]

theorem gpt_footer_bytes_eq {d : gpt_descriptor} (hok : make_gpt_ok d = true) :
    gpt_footer_bytes d = footer_blob d := by
  obtain ⟨-, -, -, -, -, -, heq⟩ := make_gpt_ok_elim hok
  simp [gpt_footer_bytes, heq, build_gpt]

--
-- Reading regions of the header blob.
--

theorem header_blob_length {d : gpt_descriptor} (hwf : d.wf)
    (hok : make_gpt_ok d = true) :
    (header_blob d).length = (2 + partition_entry_blocks d) * d.block_size := by
  obtain ⟨h512, hpeb, hEle, hEnt, hH1, hH2, hsplit2, hsplit1, hBpeb⟩ := blob_nums hwf hok
  unfold header_blob
  rw [blit_length, blit_length, blit_length, zeroBytes_length]
  · rw [protective_mbr_bytes_length, zeroBytes_length]; omega
  · rw [hH1, blit_length (by rw [protective_mbr_bytes_length, zeroBytes_length]; omega),
      zeroBytes_length]
    omega
  · rw [hEnt,
      blit_length (by
        rw [hH1, blit_length (by rw [protective_mbr_bytes_length, zeroBytes_length]; omega),
          zeroBytes_length]
        omega),
      blit_length (by rw [protective_mbr_bytes_length, zeroBytes_length]; omega),
      zeroBytes_length]
    omega

theorem footer_blob_length {d : gpt_descriptor} (hwf : d.wf)
    (hok : make_gpt_ok d = true) :
    (footer_blob d).length = (1 + partition_entry_blocks d) * d.block_size := by
  obtain ⟨h512, hpeb, hEle, hEnt, hH1, hH2, hsplit2, hsplit1, hBpeb⟩ := blob_nums hwf hok
  unfold footer_blob
  rw [blit_length, blit_length, zeroBytes_length]
  · rw [hEnt, zeroBytes_length]; omega
  · rw [hH2, blit_length (by rw [hEnt, zeroBytes_length]; omega), zeroBytes_length]
    omega

theorem header_blob_mbr_field {d : gpt_descriptor} (hwf : d.wf)
    (hok : make_gpt_ok d = true) {a len : Nat} (hal : a + len ≤ 512) :
    extractBytes (header_blob d) a len
      = extractBytes (protective_mbr_bytes d.number_of_blocks) a len := by
  obtain ⟨h512, hpeb, hEle, hEnt, hH1, hH2, hsplit2, hsplit1, hBpeb⟩ := blob_nums hwf hok
  unfold header_blob
  rw [extractBytes_blit_left (show a + len ≤ 2 * d.block_size by omega)
      (by
        rw [blit_length (by
            rw [hH1, blit_length (by rw [protective_mbr_bytes_length, zeroBytes_length]; omega),
              zeroBytes_length]
            omega),
          blit_length (by rw [protective_mbr_bytes_length, zeroBytes_length]; omega),
          zeroBytes_length]
        omega),
    extractBytes_blit_left (show a + len ≤ d.block_size by omega)
      (by
        rw [blit_length (by rw [protective_mbr_bytes_length, zeroBytes_length]; omega),
          zeroBytes_length]
        omega),
    extractBytes_blit_mid (Nat.zero_le a)
      (by rw [protective_mbr_bytes_length]; omega)
      (by rw [zeroBytes_length]; omega),
    Nat.sub_zero]

theorem header_blob_header_field {d : gpt_descriptor} (hwf : d.wf)
    (hok : make_gpt_ok d = true) {a len : Nat} (hal : a + len ≤ 92) :
    extractBytes (header_blob d) (d.block_size + a) len
      = extractBytes (serialize_gpt_header (first_gpt_header d)) a len := by
  obtain ⟨h512, hpeb, hEle, hEnt, hH1, hH2, hsplit2, hsplit1, hBpeb⟩ := blob_nums hwf hok
  unfold header_blob
  rw [extractBytes_blit_left (show d.block_size + a + len ≤ 2 * d.block_size by omega)
      (by
        rw [blit_length (by
            rw [hH1, blit_length (by rw [protective_mbr_bytes_length, zeroBytes_length]; omega),
              zeroBytes_length]
            omega),
          blit_length (by rw [protective_mbr_bytes_length, zeroBytes_length]; omega),
          zeroBytes_length]
        omega),
    extractBytes_blit_mid (show d.block_size ≤ d.block_size + a by omega)
      (by rw [hH1]; omega)
      (by
        rw [blit_length (by rw [protective_mbr_bytes_length, zeroBytes_length]; omega),
          zeroBytes_length]
        omega),
    show d.block_size + a - d.block_size = a by omega]

theorem header_blob_entries {d : gpt_descriptor} (hwf : d.wf)
    (hok : make_gpt_ok d = true) :
    extractBytes (header_blob d) (2 * d.block_size) (128 * d.partitions.length)
      = serialize_partition_entries d.partitions := by
  obtain ⟨h512, hpeb, hEle, hEnt, hH1, hH2, hsplit2, hsplit1, hBpeb⟩ := blob_nums hwf hok
  unfold header_blob
  rw [extractBytes_blit_mid (Nat.le_refl _) (by rw [hEnt])
      (by
        rw [blit_length (by
            rw [hH1, blit_length (by rw [protective_mbr_bytes_length, zeroBytes_length]; omega),
              zeroBytes_length]
            omega),
          blit_length (by rw [protective_mbr_bytes_length, zeroBytes_length]; omega),
          zeroBytes_length]
        omega),
    Nat.sub_self]
  exact extractBytes_all_of_length hEnt

theorem footer_blob_header_field {d : gpt_descriptor} (hwf : d.wf)
    (hok : make_gpt_ok d = true) {a len : Nat} (hal : a + len ≤ 92) :
    extractBytes (footer_blob d) (d.block_size + a) len
      = extractBytes (serialize_gpt_header (second_gpt_header d)) a len := by
  obtain ⟨h512, hpeb, hEle, hEnt, hH1, hH2, hsplit2, hsplit1, hBpeb⟩ := blob_nums hwf hok
  unfold footer_blob
  rw [extractBytes_blit_mid (show 1 * d.block_size ≤ d.block_size + a by omega)
      (by rw [hH2]; omega)
      (by rw [blit_length (by rw [hEnt, zeroBytes_length]; omega), zeroBytes_length]; omega),
    show d.block_size + a - 1 * d.block_size = a by omega]

theorem first_gpt_header_zero (d : gpt_descriptor) :
    { first_gpt_header d with header_crc32 := 0 } = first_gpt_header_base d := rfl

theorem second_gpt_header_zero (d : gpt_descriptor) :
    { second_gpt_header d with header_crc32 := 0 } = second_gpt_header_base d := rfl

--
-- The claims.
--

/-- C9: `crc32` computes the reflected CRC-32 (polynomial 0xEDB88320, initial
accumulator 0xFFFFFFFF, bytes processed least-significant-bit first, accumulator
inverted before return, as embedded in the definition of `crc32`); in particular it
maps the nine ASCII bytes "123456789" to 0xCBF43926, and the empty input to 0
(initial value and final inversion cancel). -/
theorem c9_crc32_check_vector :
    crc32 [0x31, 0x32, 0x33, 0x34, 0x35, 0x36, 0x37, 0x38, 0x39] = 0xcbf43926 ∧
    crc32 [] = 0 := by
  exact ⟨by decide, by decide⟩

/-- C10: whenever a descriptor passes the `number_of_blocks` check
(`number_of_blocks ≥ 3 + 2·partition_entry_blocks + 1`), the derived
`first_usable_lba = 2 + partition_entry_blocks` does not exceed
`last_usable_lba = number_of_blocks − partition_entry_blocks − 2`, so the usable
region is non-empty, and the unsigned subtraction computing `last_usable_lba`
cannot wrap (its integer value is non-negative and equals the natural-number
truncated subtraction). -/
theorem c10_usable_region (d : gpt_descriptor)
    (h : 3 + 2 * partition_entry_blocks d + 1 ≤ d.number_of_blocks) :
    first_usable_lba d = 2 + partition_entry_blocks d ∧
    last_usable_lba d = d.number_of_blocks - partition_entry_blocks d - 2 ∧
    first_usable_lba d ≤ last_usable_lba d ∧
    partition_entry_blocks d + 2 ≤ d.number_of_blocks ∧
    (d.number_of_blocks : Int) - (partition_entry_blocks d : Int) - 2
      = ((d.number_of_blocks - partition_entry_blocks d - 2 : Nat) : Int) := by
  refine ⟨rfl, rfl, ?_, by omega, ?_⟩
  · unfold first_usable_lba last_usable_lba
    omega
  · omega

theorem c10_usable_region_witness :
    3 + 2 * partition_entry_blocks descriptor_a + 1 ≤ descriptor_a.number_of_blocks ∧
    first_usable_lba descriptor_a ≤ last_usable_lba descriptor_a :=
  ⟨by decide, (c10_usable_region descriptor_a (by decide)).2.2.1⟩

/-- C3 counterexample: `descriptor_nested` is accepted by `make_gpt` although its
second partition `[150, 160]` lies strictly inside its first partition `[100, 200]`,
so the two distinct partitions do not have disjoint LBA ranges: the claim is false
as stated (the overlap test in the source only checks endpoints of the earlier partition
against the later one). -/
theorem c3_containment_counterexample :
    make_gpt_ok descriptor_nested = true ∧
    descriptor_nested.partitions = [mk_part 100 200, mk_part 150 160] ∧
    ¬((mk_part 100 200).ending_lba < (mk_part 150 160).starting_lba ∨
      (mk_part 150 160).ending_lba < (mk_part 100 200).starting_lba) := by
  exact ⟨by decide, rfl, by decide⟩

/-- C3 amended: every accepted descriptor satisfies the asymmetric non-overlap
property actually enforced by the source: for each partition `a` listed before a
partition `b`, neither endpoint of `a` lies inside `[b.starting_lba, b.ending_lba]`.
Full pairwise range-disjointness does not hold (a later partition strictly inside an
earlier one is accepted). -/
theorem c3_no_forward_overlap (d : gpt_descriptor) (hok : make_gpt_ok d = true) :
    List.Pairwise (fun a b =>
      ¬((a.starting_lba ≥ b.starting_lba ∧ a.starting_lba ≤ b.ending_lba) ∨
        (a.ending_lba ≥ b.starting_lba ∧ a.ending_lba ≤ b.ending_lba)))
      d.partitions := by
  obtain ⟨-, -, -, -, -, hval, -⟩ := make_gpt_ok_elim hok
  exact (validate_partitions_ok hval).2

theorem c3_no_forward_overlap_witness :
    make_gpt_ok descriptor_nested = true ∧
    List.Pairwise (fun a b =>
      ¬((a.starting_lba ≥ b.starting_lba ∧ a.starting_lba ≤ b.ending_lba) ∨
        (a.ending_lba ≥ b.starting_lba ∧ a.ending_lba ≤ b.ending_lba)))
      descriptor_nested.partitions :=
  ⟨by decide, c3_no_forward_overlap descriptor_nested (by decide)⟩

/-- C5: `make_gpt` rejects (raising the invalid-descriptor error, returning no blobs)
every descriptor whose block size is zero or not a multiple of 512, whose partition
list is empty, whose partition count exceeds 2^32 − 1, whose block count is below
`3 + 2·partition_entry_blocks + 1` (so exactly `3 + 2·partition_entry_blocks` is
rejected), or in which some partition starts below `first_usable_lba`, ends above
`last_usable_lba`, or starts after its end; and a single partition spanning exactly
`[first_usable_lba, last_usable_lba]` (with the structural checks satisfied) is
accepted. -/
theorem c5_validation (d : gpt_descriptor) :
    ((d.block_size = 0 ∨ d.block_size % 512 ≠ 0 ∨ d.partitions = [] ∨
        d.partitions.length > 4294967295 ∨
        d.number_of_blocks < 3 + 2 * partition_entry_blocks d + 1 ∨
        (∃ p ∈ d.partitions, p.starting_lba < first_usable_lba d ∨
          p.ending_lba > last_usable_lba d ∨ p.starting_lba > p.ending_lba)) →
      make_gpt_ok d = false) ∧
    (∀ p : gpt_partition_entry, d.block_size ≠ 0 → d.block_size % 512 = 0 →
      d.partitions = [p] →
      3 + 2 * partition_entry_blocks d + 1 ≤ d.number_of_blocks →
      p.starting_lba = first_usable_lba d → p.ending_lba = last_usable_lba d →
      make_gpt_ok d = true) := by
  constructor
  · intro hbad
    by_contra hne
    have hok : make_gpt_ok d = true := by
      cases hmk : make_gpt_ok d with
      | false => exact absurd hmk hne
      | true => rfl
    obtain ⟨hbs0, hbs512, hnil, hcnt, hnob, hval, -⟩ := make_gpt_ok_elim hok
    obtain ⟨hall, -⟩ := validate_partitions_ok hval
    rcases hbad with h | h | h | h | h | ⟨p, hp, hbadp⟩
    · exact hbs0 h
    · exact h hbs512
    · exact hnil h
    · omega
    · omega
    · have := hall p hp
      omega
  · intro p h1 h2 h3 h4 h5 h6
    exact make_gpt_ok_singleton h1 h2 h3 (by omega) h5 h6

theorem c5_validation_witness :
    (descriptor_bad_bs.block_size = 0 ∨ descriptor_bad_bs.block_size % 512 ≠ 0 ∨
      descriptor_bad_bs.partitions = [] ∨
      descriptor_bad_bs.partitions.length > 4294967295 ∨
      descriptor_bad_bs.number_of_blocks
        < 3 + 2 * partition_entry_blocks descriptor_bad_bs + 1 ∨
      (∃ p ∈ descriptor_bad_bs.partitions,
        p.starting_lba < first_usable_lba descriptor_bad_bs ∨
        p.ending_lba > last_usable_lba descriptor_bad_bs ∨
        p.starting_lba > p.ending_lba)) ∧
    make_gpt_ok descriptor_bad_bs = false ∧
    descriptor_boundary.partitions = [mk_part 3 2045] ∧
    (mk_part 3 2045).starting_lba = first_usable_lba descriptor_boundary ∧
    (mk_part 3 2045).ending_lba = last_usable_lba descriptor_boundary ∧
    make_gpt_ok descriptor_boundary = true :=
  ⟨by decide, (c5_validation descriptor_bad_bs).1 (by decide), rfl, by decide, by decide,
    (c5_validation descriptor_boundary).2 (mk_part 3 2045) (by decide) (by decide) rfl
      (by decide) (by decide) (by decide)⟩

/-- C1 (code-bug exhibit): for `descriptor_five` (five partitions, so
`partition_entry_blocks = 2`), `make_gpt` succeeds, yet the footer bytes at the
claimed backup-header offset `partition_entry_blocks · block_size = 1024` are zero
padding, while the backup GPT header (its "EFI PART" signature) actually sits at
offset `1 · block_size = 512`, in the middle of the backup partition entry array —
src/gpt/gpt.cpp:268 writes it at `1 * descriptor.block_size`. -/
theorem c1_backup_header_misplaced :
    make_gpt_ok descriptor_five = true ∧
    partition_entry_blocks descriptor_five = 2 ∧
    extractBytes (gpt_footer_bytes descriptor_five)
      (partition_entry_blocks descriptor_five * descriptor_five.block_size) 8
      = [0, 0, 0, 0, 0, 0, 0, 0] ∧
    extractBytes (gpt_footer_bytes descriptor_five) descriptor_five.block_size 8
      = [0x45, 0x46, 0x49, 0x20, 0x50, 0x41, 0x52, 0x54] := by
  exact ⟨by decide, by decide, by decide, by decide⟩

/-- C2 (code-bug exhibit): for `descriptor_five`, the 128·N partition-entry bytes at
offset `2·block_size` of the header blob are NOT byte-identical to the first 128·N
bytes of the footer blob, because the backup header `memcpy` at footer offset
`block_size` (src/gpt/gpt.cpp:268) overwrites bytes `[512, 604)` of the backup
partition entry array. -/
theorem c2_backup_array_corrupted :
    make_gpt_ok descriptor_five = true ∧
    extractBytes (gpt_header_bytes descriptor_five)
        (2 * descriptor_five.block_size) (128 * descriptor_five.partitions.length)
      ≠ extractBytes (gpt_footer_bytes descriptor_five)
        0 (128 * descriptor_five.partitions.length) := by
  exact ⟨by decide, by decide⟩

/-- C4 counterexample: `descriptor_2pow32` has `number_of_blocks = 2^32`, so
`number_of_blocks − 1 = 2^32 − 1` fits in 32 bits and the claim demands
`size_in_lba = number_of_blocks − 1`; but the source tests `number_of_blocks`
itself against `UINT32_MAX` (src/gpt/gpt.cpp:186), so the accepted descriptor gets
the saturated `size_in_lba = 0x0FFFFFFF` instead. -/
theorem c4_saturation_counterexample :
    descriptor_2pow32.number_of_blocks - 1 ≤ 4294967295 ∧
    make_gpt_ok descriptor_2pow32 = true ∧
    extractBytes (gpt_header_bytes descriptor_2pow32) 458 4
      ≠ lebytes 4 (descriptor_2pow32.number_of_blocks - 1) ∧
    extractBytes (gpt_header_bytes descriptor_2pow32) 458 4 = lebytes 4 0xfffffff := by
  exact ⟨by decide, by decide, by decide, by decide⟩

/-- C4 amended: for every accepted well-formed descriptor, the first protective-MBR
partition record stores `size_in_lba = number_of_blocks − 1` when `number_of_blocks`
itself (not `number_of_blocks − 1`) is at most 2^32 − 1, and the saturated value
0x0FFFFFFF when `number_of_blocks > 2^32 − 1`; the field occupies header-blob bytes
[458, 462) in little-endian order. -/
theorem c4_mbr_size_in_lba (d : gpt_descriptor) (hwf : d.wf)
    (hok : make_gpt_ok d = true) :
    extractBytes (gpt_header_bytes d) 458 4
      = lebytes 4 (if d.number_of_blocks > 4294967295 then 0xfffffff
          else d.number_of_blocks - 1) := by
  rw [gpt_header_bytes_eq hok, header_blob_mbr_field hwf hok (by omega),
    (protective_mbr_extract d.number_of_blocks).1]
  unfold mbr_size_in_lba
  rfl

theorem c4_mbr_size_in_lba_witness :
    descriptor_a.wf ∧ make_gpt_ok descriptor_a = true ∧
    extractBytes (gpt_header_bytes descriptor_a) 458 4
      = lebytes 4 (if descriptor_a.number_of_blocks > 4294967295 then 0xfffffff
          else descriptor_a.number_of_blocks - 1) :=
  ⟨by decide, by decide, c4_mbr_size_in_lba descriptor_a (by decide) (by decide)⟩

/-- C6 counterexample: the instantiation the claim gives for block_size = 512,
number_of_blocks = 2048, one partition (Scenario A) is wrong on the code: with one
partition `partition_entry_blocks = 1`, so the header blob has 1536 bytes (not 9216),
the footer 1024 (not 8704), and the stored `first_usable_lba` is 3 (not 34). -/
theorem c6_scenario_a_counterexample :
    make_gpt_ok descriptor_a = true ∧
    (gpt_header_bytes descriptor_a).length = 1536 ∧
    (gpt_header_bytes descriptor_a).length ≠ 9216 ∧
    (gpt_footer_bytes descriptor_a).length = 1024 ∧
    extractBytes (gpt_header_bytes descriptor_a) (512 + 40) 8 = lebytes 8 3 ∧
    extractBytes (gpt_header_bytes descriptor_a) (512 + 40) 8 ≠ lebytes 8 34 := by
  exact ⟨by decide, by decide, by decide, by decide, by decide, by decide⟩

/-- C6 amended: for every accepted well-formed descriptor, the header blob has
`(2 + partition_entry_blocks)·block_size` bytes and the footer
`(1 + partition_entry_blocks)·block_size`, where `partition_entry_blocks` is the
ceiling of `128·N / block_size` (characterized by the two inequalities below); the
protective MBR occupies header bytes [0, 512) with signature bytes 0x55, 0xAA at
offsets 510, 511; the primary GPT header at offset `block_size` begins with ASCII
"EFI PART" and stores `my_lba = 1`, `alternate_lba = number_of_blocks − 1`,
`first_usable_lba = 2 + partition_entry_blocks`, `last_usable_lba =
number_of_blocks − partition_entry_blocks − 2`, `partition_entry_lba = 2` (so for
block_size = 512, number_of_blocks = 2048, one partition: sizes 1536 and 1024,
first_usable_lba 3, last_usable_lba 2045 — not the 9216/8704/34/2014 of the claim). -/
theorem c6_blob_layout (d : gpt_descriptor) (hwf : d.wf)
    (hok : make_gpt_ok d = true) :
    (gpt_header_bytes d).length = (2 + partition_entry_blocks d) * d.block_size ∧
    (gpt_footer_bytes d).length = (1 + partition_entry_blocks d) * d.block_size ∧
    128 * d.partitions.length ≤ partition_entry_blocks d * d.block_size ∧
    partition_entry_blocks d * d.block_size
      < 128 * d.partitions.length + d.block_size ∧
    extractBytes (gpt_header_bytes d) 0 512
      = protective_mbr_bytes d.number_of_blocks ∧
    extractBytes (gpt_header_bytes d) 510 2 = [0x55, 0xaa] ∧
    extractBytes (gpt_header_bytes d) d.block_size 8
      = [0x45, 0x46, 0x49, 0x20, 0x50, 0x41, 0x52, 0x54] ∧
    extractBytes (gpt_header_bytes d) (d.block_size + 24) 8 = lebytes 8 1 ∧
    extractBytes (gpt_header_bytes d) (d.block_size + 32) 8
      = lebytes 8 (d.number_of_blocks - 1) ∧
    extractBytes (gpt_header_bytes d) (d.block_size + 40) 8
      = lebytes 8 (2 + partition_entry_blocks d) ∧
    extractBytes (gpt_header_bytes d) (d.block_size + 48) 8
      = lebytes 8 (d.number_of_blocks - partition_entry_blocks d - 2) ∧
    extractBytes (gpt_header_bytes d) (d.block_size + 72) 8 = lebytes 8 2 := by
  have hhb := gpt_header_bytes_eq hok
  have hfb := gpt_footer_bytes_eq hok
  obtain ⟨hx1, hx2, hx3, hx4, hx5, hx6, hx7, hx8⟩ :=
    serialize_gpt_header_extract (first_gpt_header d) rfl rfl hwf.1
  obtain ⟨hbs0, -⟩ := make_gpt_ok_elim hok
  refine ⟨?_, ?_, (blob_nums hwf hok).2.2.1, peb_mul_lt d hbs0,
    ?_, ?_, ?_, ?_, ?_, ?_, ?_, ?_⟩
  · rw [hhb]
    exact header_blob_length hwf hok
  · rw [hfb]
    exact footer_blob_length hwf hok
  · rw [hhb, header_blob_mbr_field hwf hok (by omega)]
    exact extractBytes_all_of_length (protective_mbr_bytes_length _)
  · rw [hhb, header_blob_mbr_field hwf hok (by omega)]
    exact (protective_mbr_extract d.number_of_blocks).2
  · have hf := @header_blob_header_field d hwf hok 0 8 (by omega)
    rw [Nat.add_zero] at hf
    rw [hhb, hf, hx1]
    rfl
  · rw [hhb, header_blob_header_field hwf hok (by omega), hx3]
    rfl
  · rw [hhb, header_blob_header_field hwf hok (by omega), hx4]
    rfl
  · rw [hhb, header_blob_header_field hwf hok (by omega), hx5]
    rfl
  · rw [hhb, header_blob_header_field hwf hok (by omega), hx6]
    rfl
  · rw [hhb, header_blob_header_field hwf hok (by omega), hx7]
    rfl

theorem c6_blob_layout_witness :
    descriptor_a.wf ∧ make_gpt_ok descriptor_a = true ∧
    (gpt_header_bytes descriptor_a).length
      = (2 + partition_entry_blocks descriptor_a) * descriptor_a.block_size :=
  ⟨by decide, by decide, (c6_blob_layout descriptor_a (by decide) (by decide)).1⟩

/-- C7: for every accepted well-formed descriptor and for each of the two emitted GPT
headers (the primary one, the 92 bytes at offset `block_size` of the header blob, and
the backup one, the 92 bytes at offset `block_size` of the footer blob), zeroing the
4-byte `header_crc32` field (bytes 16..20 of the header) and computing CRC-32 over
exactly those 92 bytes — the block padding is not part of the input — yields the
value stored in the `header_crc32` field. -/
theorem c7_header_crc32_roundtrip (d : gpt_descriptor) (hwf : d.wf)
    (hok : make_gpt_ok d = true) :
    crc32 (zero_header_crc (extractBytes (gpt_header_bytes d) d.block_size 92))
      = le_value (extractBytes (gpt_header_bytes d) (d.block_size + 16) 4) ∧
    crc32 (zero_header_crc (extractBytes (gpt_footer_bytes d) d.block_size 92))
      = le_value (extractBytes (gpt_footer_bytes d) (d.block_size + 16) 4) := by
  obtain ⟨-, -, -, -, hH1, hH2, -, -, -⟩ := blob_nums hwf hok
  constructor
  · rw [gpt_header_bytes_eq hok]
    have h92 := @header_blob_header_field d hwf hok 0 92 (by omega)
    rw [Nat.add_zero] at h92
    rw [h92, extractBytes_all_of_length hH1,
      zero_header_crc_serialize (first_gpt_header d) rfl rfl,
      first_gpt_header_zero,
      header_blob_header_field hwf hok (by omega),
      (serialize_gpt_header_extract (first_gpt_header d) rfl rfl hwf.1).2.1,
      le_value_lebytes (show (first_gpt_header d).header_crc32 < 256 ^ 4 from
        lt_of_lt_of_eq (crc32_lt (serialize_gpt_header (first_gpt_header_base d)))
          (by norm_num))]
    rfl
  · rw [gpt_footer_bytes_eq hok]
    have h92 := @footer_blob_header_field d hwf hok 0 92 (by omega)
    rw [Nat.add_zero] at h92
    rw [h92, extractBytes_all_of_length hH2,
      zero_header_crc_serialize (second_gpt_header d) rfl rfl,
      second_gpt_header_zero,
      footer_blob_header_field hwf hok (by omega),
      (serialize_gpt_header_extract (second_gpt_header d) rfl rfl hwf.1).2.1,
      le_value_lebytes (show (second_gpt_header d).header_crc32 < 256 ^ 4 from
        lt_of_lt_of_eq (crc32_lt (serialize_gpt_header (second_gpt_header_base d)))
          (by norm_num))]
    rfl

theorem c7_header_crc32_roundtrip_witness :
    descriptor_a.wf ∧ make_gpt_ok descriptor_a = true ∧
    crc32 (zero_header_crc
        (extractBytes (gpt_header_bytes descriptor_a) descriptor_a.block_size 92))
      = le_value (extractBytes (gpt_header_bytes descriptor_a)
          (descriptor_a.block_size + 16) 4) :=
  ⟨by decide, by decide,
    (c7_header_crc32_roundtrip descriptor_a (by decide) (by decide)).1⟩

/-- C8: for every accepted well-formed descriptor, the `partition_entry_checksum`
field (bytes 88..92 of the header image) of both the primary header (at offset
`block_size` of the header blob) and the backup header (at offset `block_size` of
the footer blob) stores the CRC-32 of the 128·N partition-entry bytes found at
offset `2·block_size` of the header blob. -/
theorem c8_partition_entry_checksum (d : gpt_descriptor) (hwf : d.wf)
    (hok : make_gpt_ok d = true) :
    le_value (extractBytes (gpt_header_bytes d) (d.block_size + 88) 4)
      = crc32 (extractBytes (gpt_header_bytes d) (2 * d.block_size)
          (128 * d.partitions.length)) ∧
    le_value (extractBytes (gpt_footer_bytes d) (d.block_size + 88) 4)
      = crc32 (extractBytes (gpt_header_bytes d) (2 * d.block_size)
          (128 * d.partitions.length)) := by
  rw [gpt_header_bytes_eq hok, gpt_footer_bytes_eq hok, header_blob_entries hwf hok,
    header_blob_header_field hwf hok (by omega),
    footer_blob_header_field hwf hok (by omega),
    (serialize_gpt_header_extract (first_gpt_header d) rfl rfl hwf.1).2.2.2.2.2.2.2,
    (serialize_gpt_header_extract (second_gpt_header d) rfl rfl hwf.1).2.2.2.2.2.2.2,
    le_value_lebytes (show (first_gpt_header d).partition_entry_checksum < 256 ^ 4
      from lt_of_lt_of_eq (crc32_lt (serialize_partition_entries d.partitions))
        (by norm_num)),
    le_value_lebytes (show (second_gpt_header d).partition_entry_checksum < 256 ^ 4
      from lt_of_lt_of_eq (crc32_lt (serialize_partition_entries d.partitions))
        (by norm_num))]
  exact ⟨rfl, rfl⟩

theorem c8_partition_entry_checksum_witness :
    descriptor_a.wf ∧ make_gpt_ok descriptor_a = true ∧
    le_value (extractBytes (gpt_header_bytes descriptor_a)
        (descriptor_a.block_size + 88) 4)
      = crc32 (extractBytes (gpt_header_bytes descriptor_a)
          (2 * descriptor_a.block_size) (128 * descriptor_a.partitions.length)) :=
  ⟨by decide, by decide,
    (c8_partition_entry_checksum descriptor_a (by decide) (by decide)).1⟩
